import Mathlib

/-!
Verification of the pc_build_ml_ops multi-agent dialog graph.

This file gives a shallow embedding, in Lean 4, of the pure control logic of
the repository's agent graph:

* `update_dialog_stack` (src/airflow/airflow-compose/dags/src/agent_shema/build_agent_state.py)
* `handle_tool_error`, `create_entry_node` (src/airflow/airflow-compose/dags/src/utils/utilities.py)
* `leave_skill`, `route_build_pc`, `route_validate_price`,
  `route_primary_assistant`, `route_to_workflow` and the static edges added by
  `AgenticGraph` (src/src/agent_shema/mult_agents_graph.py)
* `Assistant.__call__` (src/src/agent_shema/build_assistants.py)
* `tools_condition` (langgraph.prebuilt.tool_node, as called by the routers)

Python exceptions (`raise ValueError`, `IndexError` from `messages[-1]`,
pydantic validation failures) are embedded as `Except String` / `Option`
failures.  Python truthiness of strings, lists and `None` is made explicit.
-/

namespace PCBuild

/-- A LangChain `ToolCall` dict as used by the graph code: the `"name"` key is
always present, the `"id"` key is `Optional[str]` (so `tc.get("id")` may be
`None`, and a present id may still be the empty string). -/
structure ToolCall where
  name : String
  id : Option String
deriving Repr, DecidableEq

/-- One element of a structured content-block list; the code only inspects the
optional `"text"` entry via `block.get("text")`. -/
structure ContentBlock where
  text : Option String
deriving Repr, DecidableEq

/-- Message `content` in LangChain is `str | list` of blocks. -/
inductive PyContent where
  | str (s : String)
  | blocks (l : List ContentBlock)
deriving Repr, DecidableEq

/-- Python truthiness of an `Optional[str]`: `None` and `""` are falsy. -/
def optStrTruthy : Option String → Bool
  | none => false
  | some s => s ≠ ""

/-- Python truthiness of message `content` (`not result.content`):
the empty string and the empty list are falsy. -/
def contentTruthy : PyContent → Bool
  | .str s => s ≠ ""
  | .blocks l => !l.isEmpty

/-- The messages occurring in the graph state: `AIMessage` (the only kind with
a `tool_calls` attribute), `HumanMessage`, and `ToolMessage` (with `content`,
optional `name`, and `tool_call_id`). -/
inductive AnyMessage where
  | ai (content : PyContent) (tool_calls : List ToolCall)
  | human (content : PyContent)
  | tool (content : String) (name : Option String) (tool_call_id : String)
deriving Repr, DecidableEq

/-- The graph `State` TypedDict
(src/airflow/airflow-compose/dags/src/agent_shema/build_agent_state.py):
message history, optional user info, and the dialog stack. -/
structure State where
  messages : List AnyMessage
  user_info : Option String
  dialog_state : List String
deriving Repr, DecidableEq

/-- `update_dialog_stack(left, right)` from build_agent_state.py.

```python
if right is None:
    return left
if right == "pop" and left:
    return left[:-1]
if right not in ["assistant", "build_pc", "validate_price"]:
    raise ValueError(f"Invalid state transition: \x7bright\x7d")
return left + [right]
```

The `raise` is embedded as `Except.error` carrying the formatted message. -/
def update_dialog_stack (left : List String) (right : Option String) :
    Except String (List String) :=
  match right with
  | none => .ok left
  | some r =>
    if r = "pop" ∧ ¬left.isEmpty then .ok left.dropLast
    else if r ∉ ["assistant", "build_pc", "validate_price"] then
      .error ("Invalid state transition: " ++ r)
    else .ok (left ++ [r])

/-- The closed set of dialog states accepted by the `update_dialog_stack`
validation branch. -/
def validDialogStates : List String := ["assistant", "build_pc", "validate_price"]

/-- `CompleteOrEscalate.__name__` (complete_or_escalate.py). -/
def completeOrEscalateName : String := "CompleteOrEscalate"

/-- `ToPCBuildAssistant.__name__` (build_assistants.py). -/
def toPCBuildAssistantName : String := "ToPCBuildAssistant"

/-- `ToPriceValidationCheckerAssistant.__name__` (build_assistants.py). -/
def toPriceValidationCheckerAssistantName : String :=
  "ToPriceValidationCheckerAssistant"

/-- The `tool_calls` attribute as the routers read it: present (and possibly
empty) on `AIMessage`, absent — treated as `[]` by the
`isinstance(last_message, AIMessage) and last_message.tool_calls` guard — on
every other message kind. -/
def messageToolCalls : AnyMessage → List ToolCall
  | .ai _ tcs => tcs
  | _ => []

/-- `langgraph.prebuilt.tool_node.tools_condition`, as invoked by the three
routers: raises `ValueError` when the state has no messages; returns
`"tools"` when the last message has a non-empty `tool_calls` attribute and
`"__end__"` otherwise. -/
def tools_condition (st : State) : Except String String :=
  match st.messages.getLast? with
  | none => .error "No messages found in input state to tool_edge"
  | some m =>
    match m with
    | .ai _ tcs => if tcs.length > 0 then .ok "tools" else .ok "__end__"
    | _ => .ok "__end__"

/-- `route_build_pc` (mult_agents_graph.py, inside
`add_pc_build_nodes_to_graph`): `tools_condition` first, then `"__end__"` when
there are no ToolCalls, `"leave_skill"` when **any** ToolCall in the batch is
named `CompleteOrEscalate` (`did_cancel = any(...)`), else
`"build_pc_tools"`. -/
def route_build_pc (st : State) : Except String String :=
  match tools_condition st with
  | .error e => .error e
  | .ok route =>
    if route = "__end__" then .ok "__end__"
    else
      match st.messages.getLast? with
      | none => .error "IndexError: list index out of range"
      | some last =>
        let tool_calls := messageToolCalls last
        if tool_calls.isEmpty then .ok "__end__"
        else if tool_calls.any (fun tc => tc.name = completeOrEscalateName) then
          .ok "leave_skill"
        else .ok "build_pc_tools"

/-- `route_validate_price` (mult_agents_graph.py, inside
`add_price_validation_nodes_to_graph`): identical logic to `route_build_pc`
with `"price_validation_tools"` as the tools node. -/
def route_validate_price (st : State) : Except String String :=
  match tools_condition st with
  | .error e => .error e
  | .ok route =>
    if route = "__end__" then .ok "__end__"
    else
      match st.messages.getLast? with
      | none => .error "IndexError: list index out of range"
      | some last =>
        let tool_calls := messageToolCalls last
        if tool_calls.isEmpty then .ok "__end__"
        else if tool_calls.any (fun tc => tc.name = completeOrEscalateName) then
          .ok "leave_skill"
        else .ok "price_validation_tools"

/-- `route_primary_assistant` (mult_agents_graph.py, inside
`add_primary_assistant_nodes_to_graph`): `tools_condition` first; with
ToolCalls present, only `tool_calls[0]["name"]` is compared against the two
delegation tool names, any other name falling to
`"primary_assistant_tools"`. -/
def route_primary_assistant (st : State) : Except String String :=
  match tools_condition st with
  | .error e => .error e
  | .ok route =>
    if route = "__end__" then .ok "__end__"
    else
      match st.messages.getLast? with
      | none => .error "IndexError: list index out of range"
      | some last =>
        match messageToolCalls last with
        | [] => .ok "primary_assistant_tools"
        | tc :: _ =>
          if tc.name = toPCBuildAssistantName then .ok "enter_build_pc"
          else if tc.name = toPriceValidationCheckerAssistantName then
            .ok "enter_validate_price"
          else .ok "primary_assistant_tools"

/-- `route_to_workflow` (mult_agents_graph.py): empty (falsy) `dialog_state`
goes to `"primary_assistant"`; otherwise the last element is returned when it
is one of the three known node names, with `"primary_assistant"` as the
default for an unknown value. -/
def route_to_workflow (st : State) : String :=
  match st.dialog_state.getLast? with
  | none => "primary_assistant"
  | some last_state =>
    if last_state = "build_pc" ∨ last_state = "validate_price" ∨
        last_state = "primary_assistant" then last_state
    else "primary_assistant"

/-- The `dict` a graph node returns: a `dialog_state` update (the string fed
to `update_dialog_stack`) and a list of messages to append. -/
structure NodeResult where
  dialog_state : String
  messages : List AnyMessage
deriving Repr, DecidableEq

/-- The content of the `ToolMessage` emitted by `leave_skill`. -/
def leaveSkillContent : String :=
  "Завершаем текущую задачу и возвращаемся к основному ассистенту."

/-- The messages list built by `leave_skill` from the last message: one
`ToolMessage` only when the last message is an `AIMessage` whose `tool_calls`
list is non-empty **and** whose first call has a truthy id
(`last_message.tool_calls[0].get("id")`). -/
def leaveSkillMessages : AnyMessage → List AnyMessage
  | .ai _ (tc :: _) =>
    match tc.id with
    | some i => if i ≠ "" then [.tool leaveSkillContent none i] else []
    | none => []
  | _ => []

/-- `leave_skill` (mult_agents_graph.py): reads `state["messages"][-1]`
(IndexError on an empty history, embedded as `Except.error`); appends the
`leaveSkillMessages` of the last message; always returns the `"pop"`
dialog-state update. -/
def leave_skill (st : State) : Except String NodeResult :=
  match st.messages.getLast? with
  | none => .error "IndexError: list index out of range"
  | some last => .ok ⟨"pop", leaveSkillMessages last⟩

/-- The reduced-information content used by `create_entry_node`'s fallback
branch (utilities.py), with `assistant_name` interpolated. -/
def entryFallbackContent (assistant_name : String) : String :=
  "Помощник " ++ assistant_name ++
    " сейчас активен. Не удалось определить ID вызова инструмента."

/-- The full announcement content used by `create_entry_node`'s normal branch
(utilities.py), with `assistant_name` interpolated twice. -/
def entryFullContent (assistant_name : String) : String :=
  "Помощник " ++ assistant_name ++
    " сейчас активен. Пожалуйста, ознакомьтесь с предыдущим диалогом " ++
    "между основным помощником и пользователем. Цель пользователя пока не выполнена. " ++
    "Используйте доступные инструменты для завершения задачи. Помните, что вы " ++
    assistant_name ++ ", " ++
    "и действие считается завершенным только после успешного вызова необходимого инструмента. " ++
    "Если пользователь изменит свое мнение или потребуется помощь по другим вопросам, вызовите функцию " ++
    "CompleteOrEscalate, чтобы вернуть управление основному помощнику."

/-- The inner `entry_node` closure produced by
`create_entry_node(assistant_name, new_dialog_state)` (utilities.py): reads
`state["messages"][-1]` (IndexError on an empty history); takes
`tool_calls[0]["id"]` when the last message is an `AIMessage` with ToolCalls
whose first call has a truthy id, and otherwise falls back to the sentinel
`"unknown_tool_call_id"` with a reduced-information message; in both branches
the returned dialog-state update is `new_dialog_state`.  The id extraction
(`tool_calls[0]["id"]` when the last message is an `AIMessage` with ToolCalls
whose first call has a truthy id, `None` otherwise) is `entryToolCallId`. -/
def entryToolCallId : AnyMessage → Option String
  | .ai _ (tc :: _) => if optStrTruthy tc.id then tc.id else none
  | _ => none

/-- Body of the inner `entry_node` closure, split on the extracted id. -/
def create_entry_node (assistant_name new_dialog_state : String)
    (st : State) : Except String NodeResult :=
  match st.messages.getLast? with
  | none => .error "IndexError: list index out of range"
  | some last =>
    match entryToolCallId last with
    | none =>
      .ok ⟨new_dialog_state,
        [.tool (entryFallbackContent assistant_name) (some assistant_name)
          "unknown_tool_call_id"]⟩
    | some i =>
      .ok ⟨new_dialog_state, [.tool (entryFullContent assistant_name) none i]⟩

/-- The static edges added by `add_pc_build_nodes_to_graph`
(mult_agents_graph.py), in `add_edge` order. -/
def pcBuildEdges : List (String × String) :=
  [("enter_build_pc", "build_pc"), ("build_pc_tools", "build_pc"),
   ("leave_skill", "primary_assistant")]

/-- The static edges added by `add_price_validation_nodes_to_graph`
(mult_agents_graph.py), in `add_edge` order. -/
def priceValidationEdges : List (String × String) :=
  [("enter_validate_price", "validate_price"),
   ("price_validation_tools", "validate_price"),
   ("leave_skill", "primary_assistant")]

/-- The input of `handle_tool_error` (utilities.py): the dict passed by the
fallback runnable, holding the exception under the `"error"` key (embedded
here as its `repr` rendering) and the message history. -/
structure ErrorState where
  error : String
  messages : List AnyMessage
deriving Repr, DecidableEq

/-- Per-ToolCall error content of `handle_tool_error`, with `repr(error)`
interpolated. -/
def toolErrorContent (error : String) : String :=
  "Ошибка: " ++ error ++ "\nПожалуйста, исправьте ваши ошибки."

/-- Defensive-branch error content of `handle_tool_error`. -/
def toolErrorFallbackContent (error : String) : String :=
  "Ошибка: " ++ error ++ "\nНе удалось определить ID вызова инструмента."

/-- The list comprehension of `handle_tool_error`:
`[ToolMessage(content=..., tool_call_id=tc["id"]) for tc in tool_calls]`.
A call whose `"id"` is `None` makes the `ToolMessage` constructor fail
pydantic validation (`tool_call_id` is typed `str`), embedded as `none`. -/
def buildErrorMessages (error : String) : List ToolCall → Option (List AnyMessage)
  | [] => some []
  | tc :: rest =>
    match tc.id with
    | none => none
    | some i =>
      match buildErrorMessages error rest with
      | none => none
      | some ms => some (.tool (toolErrorContent error) none i :: ms)

/-- `handle_tool_error(state)` (utilities.py): reads `state["messages"][-1]`
(IndexError on an empty history, embedded as `none`); with no ToolCalls on the
last message it returns one `ToolMessage` named `"error_handler"` with the
empty string as its synthetic call-id; otherwise it returns one `ToolMessage`
per ToolCall, each addressed to that call's id. -/
def handle_tool_error (st : ErrorState) : Option (List AnyMessage) :=
  match st.messages.getLast? with
  | none => none
  | some last =>
    match messageToolCalls last with
    | [] =>
      some [.tool (toolErrorFallbackContent st.error) (some "error_handler") ""]
    | tc :: rest => buildErrorMessages st.error (tc :: rest)

/-- The `AIMessage` returned by one invocation of the runnable bound to an
`Assistant` (build_assistants.py): the attributes `Assistant.__call__`
inspects are `content` and `tool_calls`. -/
structure AIResponse where
  content : PyContent
  tool_calls : List ToolCall
deriving Repr, DecidableEq

/-- The re-prompt predicate of `Assistant.__call__`:
`not result.tool_calls and (not result.content or
(isinstance(result.content, list) and not result.content[0].get("text")))`. -/
def responseInvalid (r : AIResponse) : Bool :=
  r.tool_calls.isEmpty &&
    (!contentTruthy r.content ||
      (match r.content with
       | .blocks (b :: _) => !optStrTruthy b.text
       | _ => false))

/-- The synthetic user-style message appended before each re-invocation:
`HumanMessage(content="Дайте, пожалуйста, реальный ответ.")`. -/
def syntheticRequest : AnyMessage :=
  .human (.str "Дайте, пожалуйста, реальный ответ.")

/-- The `while True` loop of `Assistant.__call__` (build_assistants.py).  The
bound runnable is embedded as the stream of responses its successive
invocations would return; an exhausted stream (`[]`, a runnable that never
becomes valid) is `none`.  The result is the response finally returned in
`{"messages": result}`, the state passed to the last invocation, and the
number of invocations performed. -/
def assistantCall (responses : List AIResponse) (st : State) :
    Option (AIResponse × State × Nat) :=
  match responses with
  | [] => none
  | r :: rest =>
    if responseInvalid r then
      match assistantCall rest
          { st with messages := st.messages ++ [syntheticRequest] } with
      | none => none
      | some (res, fin, n) => some (res, fin, n + 1)
    else some (r, st, 1)

end PCBuild

namespace PCBuild

/-- Claim C1: `update([], "pop")` is claimed to return `[]` unchanged without
failing; the code instead raises `ValueError("Invalid state transition: pop")`,
because `right == "pop" and left` is false for the empty stack and control
falls through to the validation branch.  This theorem evaluates the embedded
code at the failing input. -/
theorem c1_pop_on_empty_raises :
    update_dialog_stack [] (some "pop") =
      Except.error "Invalid state transition: pop" := rfl

/-- For every non-empty stack, `op = "pop"` removes the last element (the true
half of claim C1). -/
theorem pop_nonempty_drops_last (l : List String) (h : l ≠ []) :
    update_dialog_stack l (some "pop") = .ok l.dropLast := by
  unfold update_dialog_stack
  simp [List.isEmpty_iff, h]

/-- Claim C9: pushing `"build_pc"` (the delegation performed by
`enter_build_pc`) and then applying `"pop"` (the escalation performed by
`leave_skill`) restores any dialog stack `s` exactly; moreover the static edge
added for `leave_skill` sends control to `primary_assistant`, and it is the
only edge out of `leave_skill`, in both skill subgraphs. -/
theorem c9_roundtrip (s : List String) :
    (update_dialog_stack s (some "build_pc") = .ok (s ++ ["build_pc"]) ∧
      update_dialog_stack (s ++ ["build_pc"]) (some "pop") = .ok s) ∧
    (("leave_skill", "primary_assistant") ∈ pcBuildEdges ∧
      ∀ d, ("leave_skill", d) ∈ pcBuildEdges → d = "primary_assistant") ∧
    (("leave_skill", "primary_assistant") ∈ priceValidationEdges ∧
      ∀ d, ("leave_skill", d) ∈ priceValidationEdges → d = "primary_assistant") := by
  refine ⟨⟨?_, ?_⟩, ⟨by decide, ?_⟩, ⟨by decide, ?_⟩⟩
  · unfold update_dialog_stack
    simp [validDialogStates]
  · unfold update_dialog_stack
    simp [List.isEmpty_iff]
  · intro d hd
    simp [pcBuildEdges] at hd
    exact hd
  · intro d hd
    simp [priceValidationEdges] at hd
    exact hd

/-- Witness for C9 at the concrete stack `["assistant"]`. -/
theorem c9_roundtrip_witness :
    (update_dialog_stack ["assistant"] (some "build_pc") =
        .ok (["assistant"] ++ ["build_pc"]) ∧
      update_dialog_stack (["assistant"] ++ ["build_pc"]) (some "pop") =
        .ok ["assistant"]) ∧
    (("leave_skill", "primary_assistant") ∈ pcBuildEdges ∧
      ∀ d, ("leave_skill", d) ∈ pcBuildEdges → d = "primary_assistant") ∧
    (("leave_skill", "primary_assistant") ∈ priceValidationEdges ∧
      ∀ d, ("leave_skill", d) ∈ priceValidationEdges → d = "primary_assistant") :=
  c9_roundtrip ["assistant"]

/-- Claim C10: whenever `update_dialog_stack` returns a result on a stack whose
elements all lie in the closed set `{assistant, build_pc, validate_price}`,
every element of the result lies in that set too, and the result is obtained
functionally from the input (it is the input itself, the input minus its last
element, or the input plus one pushed element) — the input list is never
mutated. -/
theorem c10_closed_set_preserved (l : List String) (r : Option String)
    (res : List String) (hok : update_dialog_stack l r = .ok res)
    (hl : ∀ x ∈ l, x ∈ validDialogStates) :
    (∀ x ∈ res, x ∈ validDialogStates) ∧
    (res = l ∨ res = l.dropLast ∨ ∃ v, r = some v ∧ v ∈ validDialogStates ∧
      res = l ++ [v]) := by
  unfold update_dialog_stack at hok
  match r with
  | none =>
    simp only [Except.ok.injEq] at hok
    subst hok
    exact ⟨hl, Or.inl rfl⟩
  | some v =>
    simp only at hok
    by_cases hpop : v = "pop" ∧ ¬l.isEmpty
    · rw [if_pos hpop] at hok
      simp only [Except.ok.injEq] at hok
      subst hok
      refine ⟨fun x hx => hl x (List.dropLast_subset l hx), Or.inr (Or.inl rfl)⟩
    · rw [if_neg hpop] at hok
      by_cases hval : v ∉ ["assistant", "build_pc", "validate_price"]
      · rw [if_pos hval] at hok
        exact absurd hok (by simp)
      · rw [if_neg hval] at hok
        simp only [Except.ok.injEq] at hok
        subst hok
        push_neg at hval
        refine ⟨?_, Or.inr (Or.inr ⟨v, rfl, hval, rfl⟩)⟩
        intro x hx
        rcases List.mem_append.mp hx with h | h
        · exact hl x h
        · simp only [List.mem_singleton] at h
          subst h
          exact hval

/-- Witness for C10 at the concrete input `(["assistant"], some "build_pc")`. -/
theorem c10_closed_set_preserved_witness :
    (∀ x ∈ (["assistant", "build_pc"] : List String), x ∈ validDialogStates) ∧
    ((["assistant", "build_pc"] : List String) = ["assistant"] ∨
      ["assistant", "build_pc"] = (["assistant"] : List String).dropLast ∨
      ∃ v, (some "build_pc" : Option String) = some v ∧ v ∈ validDialogStates ∧
        ["assistant", "build_pc"] = ["assistant"] ++ [v]) :=
  c10_closed_set_preserved ["assistant"] (some "build_pc") ["assistant", "build_pc"]
    rfl (by decide)

/-- Claim C2 counterexample: a state whose last assistant message carries two
ToolCalls, the first named `"regard_tool"` and only the second named
`"CompleteOrEscalate"`.  The claim says both skill routers must return the
tools node (first-call-only routing); the code's
`did_cancel = any(tc["name"] == CompleteOrEscalate.__name__ ...)` scans the
whole batch and returns `"leave_skill"` on both. -/
theorem c2_first_call_only_counterexample :
    route_build_pc
      ⟨[.ai (.str "x")
          [⟨"regard_tool", some "call_1"⟩, ⟨"CompleteOrEscalate", some "call_2"⟩]],
        none, ["assistant", "build_pc"]⟩ = .ok "leave_skill" ∧
    route_validate_price
      ⟨[.ai (.str "x")
          [⟨"regard_tool", some "call_1"⟩, ⟨"CompleteOrEscalate", some "call_2"⟩]],
        none, ["assistant", "validate_price"]⟩ = .ok "leave_skill" :=
  ⟨rfl, rfl⟩

/-- Claim C2 as amended: for every state whose last message is an assistant
message with a non-empty ToolCall batch, `route_build_pc` and
`route_validate_price` return `"leave_skill"` exactly when **any** ToolCall in
the batch (not only the first) is named `CompleteOrEscalate`, and the skill's
tools node otherwise. -/
theorem c2_route_skill_any_cancel (st : State) (c : PyContent)
    (tcs : List ToolCall) (h : st.messages.getLast? = some (.ai c tcs))
    (hne : tcs ≠ []) :
    route_build_pc st =
      .ok (if tcs.any (fun tc => tc.name = completeOrEscalateName)
        then "leave_skill" else "build_pc_tools") ∧
    route_validate_price st =
      .ok (if tcs.any (fun tc => tc.name = completeOrEscalateName)
        then "leave_skill" else "price_validation_tools") := by
  have hlen : 0 < tcs.length := List.length_pos.mpr hne
  have hie : tcs.isEmpty = false := by simp [List.isEmpty_iff, hne]
  constructor
  · unfold route_build_pc tools_condition
    rw [h]
    simp only [hlen, if_pos, messageToolCalls, hie]
    simp only [gt_iff_lt, hlen, if_true, Bool.false_eq_true, if_false]
    norm_num
    split <;> rename_i hcond
    · exact absurd hcond (by decide)
    · split <;> rename_i hc2 <;> simp [hc2]
  · unfold route_validate_price tools_condition
    rw [h]
    simp only [hlen, if_pos, messageToolCalls, hie]
    simp only [gt_iff_lt, hlen, if_true, Bool.false_eq_true, if_false]
    norm_num
    split <;> rename_i hcond
    · exact absurd hcond (by decide)
    · split <;> rename_i hc2 <;> simp [hc2]

/-- Witness for the amended C2 at a concrete state whose only ToolCall is
`CompleteOrEscalate`. -/
theorem c2_route_skill_any_cancel_witness :
    route_build_pc
      ⟨[.ai (.str "done") [⟨"CompleteOrEscalate", some "call_9"⟩]], none, []⟩ =
      .ok (if ([⟨"CompleteOrEscalate", some "call_9"⟩] : List ToolCall).any
          (fun tc => tc.name = completeOrEscalateName)
        then "leave_skill" else "build_pc_tools") ∧
    route_validate_price
      ⟨[.ai (.str "done") [⟨"CompleteOrEscalate", some "call_9"⟩]], none, []⟩ =
      .ok (if ([⟨"CompleteOrEscalate", some "call_9"⟩] : List ToolCall).any
          (fun tc => tc.name = completeOrEscalateName)
        then "leave_skill" else "price_validation_tools") :=
  c2_route_skill_any_cancel
    ⟨[.ai (.str "done") [⟨"CompleteOrEscalate", some "call_9"⟩]], none, []⟩
    (.str "done") [⟨"CompleteOrEscalate", some "call_9"⟩] rfl (by decide)

/-- Claim C3: for every state with a message history, the primary-assistant
router returns `"__end__"` when the last message carries no ToolCalls, and
otherwise routes on the first ToolCall's name alone: `"enter_build_pc"` for
`ToPCBuildAssistant`, `"enter_validate_price"` for
`ToPriceValidationCheckerAssistant`, and `"primary_assistant_tools"` for any
other (unrecognized) name, without error. -/
theorem c3_route_primary_assistant (st : State) (last : AnyMessage)
    (h : st.messages.getLast? = some last) :
    route_primary_assistant st =
      .ok (match messageToolCalls last with
        | [] => "__end__"
        | tc :: _ =>
          if tc.name = toPCBuildAssistantName then "enter_build_pc"
          else if tc.name = toPriceValidationCheckerAssistantName then
            "enter_validate_price"
          else "primary_assistant_tools") := by
  unfold route_primary_assistant tools_condition
  rw [h]
  match last with
  | .human c => rfl
  | .tool c n i => rfl
  | .ai c tcs =>
    match tcs with
    | [] => rfl
    | tc :: rest =>
      simp only [messageToolCalls, List.length_cons, gt_iff_lt,
        Nat.succ_pos, if_true]
      split <;> rename_i hcond
      · exact absurd hcond (by decide)
      · split <;> rename_i h1
        · simp [h1]
        · split <;> rename_i h2 <;> simp [h1, h2]

/-- Witness for C3: a concrete state whose first ToolCall is the PC-build
delegation tool routes to `"enter_build_pc"`. -/
theorem c3_route_primary_assistant_witness :
    route_primary_assistant
      ⟨[.ai (.str "ok") [⟨"ToPCBuildAssistant", some "call_3"⟩]], none, []⟩ =
      .ok (match messageToolCalls
          (.ai (.str "ok") [⟨"ToPCBuildAssistant", some "call_3"⟩]) with
        | [] => "__end__"
        | tc :: _ =>
          if tc.name = toPCBuildAssistantName then "enter_build_pc"
          else if tc.name = toPriceValidationCheckerAssistantName then
            "enter_validate_price"
          else "primary_assistant_tools") :=
  c3_route_primary_assistant
    ⟨[.ai (.str "ok") [⟨"ToPCBuildAssistant", some "call_3"⟩]], none, []⟩
    (.ai (.str "ok") [⟨"ToPCBuildAssistant", some "call_3"⟩]) rfl

/-- Claim C4: `route_to_workflow` sends an empty dialog stack to
`"primary_assistant"`, and a non-empty stack to the top-of-stack skill's main
node: `"build_pc"` when the top element is `"build_pc"` and
`"validate_price"` when it is `"validate_price"`. -/
theorem c4_route_to_workflow (st : State) :
    (st.dialog_state = [] → route_to_workflow st = "primary_assistant") ∧
    (st.dialog_state.getLast? = some "build_pc" →
      route_to_workflow st = "build_pc") ∧
    (st.dialog_state.getLast? = some "validate_price" →
      route_to_workflow st = "validate_price") := by
  refine ⟨?_, ?_, ?_⟩
  · intro h
    unfold route_to_workflow
    rw [h]
    rfl
  · intro h
    unfold route_to_workflow
    rw [h]
    rfl
  · intro h
    unfold route_to_workflow
    rw [h]
    rfl

/-- Witness for C4 at the concrete stack `["assistant", "build_pc"]`. -/
theorem c4_route_to_workflow_witness :
    route_to_workflow ⟨[], none, ["assistant", "build_pc"]⟩ = "build_pc" :=
  (c4_route_to_workflow ⟨[], none, ["assistant", "build_pc"]⟩).2.1 rfl

/-- Reduction of `leave_skill` on a state with a last message. -/
theorem leave_skill_eq (st : State) (last : AnyMessage)
    (h : st.messages.getLast? = some last) :
    leave_skill st = .ok ⟨"pop", leaveSkillMessages last⟩ := by
  unfold leave_skill
  cases hm : st.messages.getLast? with
  | none => rw [hm] at h; cases h
  | some m =>
    rw [hm] at h
    injection h with h2
    subst h2
    rfl

/-- Claim C8 counterexample: a state whose last assistant message carries a
ToolCall whose `"id"` is `None`.  The claim says `leave_skill` emits one
ToolResult whenever the last message carries ToolCalls; the code's
`tool_calls[0].get("id")` truthiness guard makes it emit no message here. -/
theorem c8_leave_skill_counterexample :
    leave_skill
      ⟨[.ai (.str "x") [⟨"CompleteOrEscalate", none⟩]], none,
        ["assistant", "build_pc"]⟩ = .ok ⟨"pop", []⟩ ∧
    messageToolCalls (.ai (.str "x") [⟨"CompleteOrEscalate", none⟩]) ≠ [] :=
  ⟨rfl, by decide⟩

/-- Claim C8 as amended: for every state with a message history,
`leave_skill` succeeds with the `"pop"` dialog-state update and at most one
message; it emits exactly one ToolResult addressed to the first ToolCall's id
when the last message is an assistant message whose first ToolCall carries a
truthy (present, non-empty) id, and emits no message otherwise — in
particular when the last message carries no ToolCalls, and also when it
carries ToolCalls whose first call lacks a truthy id. -/
theorem c8_leave_skill_pop (st : State) (last : AnyMessage)
    (h : st.messages.getLast? = some last) :
    ∃ res, leave_skill st = .ok res ∧ res.dialog_state = "pop" ∧
      res.messages.length ≤ 1 ∧
      (∀ c tc rest i, last = .ai c (tc :: rest) → tc.id = some i → i ≠ "" →
        res.messages = [.tool leaveSkillContent none i]) ∧
      (messageToolCalls last = [] → res.messages = []) ∧
      (∀ c tc rest, last = .ai c (tc :: rest) → optStrTruthy tc.id = false →
        res.messages = []) := by
  refine ⟨_, leave_skill_eq st last h, rfl, ?_, ?_, ?_, ?_⟩
  · cases last with
    | ai c tcs =>
      cases tcs with
      | nil => simp [leaveSkillMessages]
      | cons tc rest =>
        cases htc : tc.id with
        | none => simp [leaveSkillMessages, htc]
        | some i =>
          by_cases hi : i = "" <;> simp [leaveSkillMessages, htc, hi]
    | human c => simp [leaveSkillMessages]
    | tool c n i => simp [leaveSkillMessages]
  · intro c2 tc2 rest2 i heq hid hne
    subst heq
    simp [leaveSkillMessages, hid, hne]
  · intro hmt
    cases last with
    | ai c tcs =>
      simp only [messageToolCalls] at hmt
      subst hmt
      simp [leaveSkillMessages]
    | human c => simp [leaveSkillMessages]
    | tool c n i => simp [leaveSkillMessages]
  · intro c2 tc2 rest2 heq hfalsy
    subst heq
    cases htc : tc2.id with
    | none => simp [leaveSkillMessages, htc]
    | some i =>
      rw [htc] at hfalsy
      simp only [optStrTruthy, decide_eq_false_iff_not, Decidable.not_not] at hfalsy
      simp [leaveSkillMessages, htc, hfalsy]

/-- Witness for the amended C8: a concrete state whose first ToolCall has the
truthy id `"call_5"`. -/
theorem c8_leave_skill_pop_witness :
    ∃ res,
      leave_skill
        ⟨[.ai (.str "x") [⟨"CompleteOrEscalate", some "call_5"⟩]], none,
          ["assistant", "build_pc"]⟩ = .ok res ∧
      res.dialog_state = "pop" ∧ res.messages.length ≤ 1 ∧
      (∀ c tc rest i,
        (AnyMessage.ai (.str "x") [⟨"CompleteOrEscalate", some "call_5"⟩]) =
          .ai c (tc :: rest) → tc.id = some i → i ≠ "" →
        res.messages = [.tool leaveSkillContent none i]) ∧
      (messageToolCalls
          (.ai (.str "x") [⟨"CompleteOrEscalate", some "call_5"⟩]) = [] →
        res.messages = []) ∧
      (∀ c tc rest,
        (AnyMessage.ai (.str "x") [⟨"CompleteOrEscalate", some "call_5"⟩]) =
          .ai c (tc :: rest) → optStrTruthy tc.id = false →
        res.messages = []) :=
  c8_leave_skill_pop
    ⟨[.ai (.str "x") [⟨"CompleteOrEscalate", some "call_5"⟩]], none,
      ["assistant", "build_pc"]⟩
    (.ai (.str "x") [⟨"CompleteOrEscalate", some "call_5"⟩]) rfl

/-- Reduction of `create_entry_node` on a state with a last message. -/
theorem create_entry_node_eq (name nds : String) (st : State)
    (last : AnyMessage) (h : st.messages.getLast? = some last) :
    create_entry_node name nds st =
      .ok (match entryToolCallId last with
        | none =>
          ⟨nds, [.tool (entryFallbackContent name) (some name)
            "unknown_tool_call_id"]⟩
        | some i => ⟨nds, [.tool (entryFullContent name) none i]⟩) := by
  unfold create_entry_node
  cases hm : st.messages.getLast? with
  | none => rw [hm] at h; cases h
  | some m =>
    rw [hm] at h
    injection h with h2
    subst h2
    dsimp only
    cases he : entryToolCallId m with
    | none => rfl
    | some i => rfl

/-- Claim C7 counterexample: on the input state with an empty message history
the entry node fails (`state["messages"][-1]` raises IndexError) instead of
succeeding, so "for every input state, the entry node of a skill never fails"
is false as stated. -/
theorem c7_entry_node_counterexample :
    create_entry_node "PC Build Assistant" "build_pc" ⟨[], none, []⟩ =
      .error "IndexError: list index out of range" := rfl

/-- Claim C7 as amended: for every input state with at least one message, the
entry node never fails: it returns the skill's target dialog-state value (the
push) together with exactly one ToolResult; when the last message's first
ToolCall carries a truthy id the ToolResult is addressed to that id (full
announcement), and otherwise the node still succeeds with the sentinel id
`"unknown_tool_call_id"` and the reduced-information message — in particular
when the last message has no ToolCalls and when the first ToolCall's id is
absent or empty. -/
theorem c7_entry_node_succeeds (name nds : String) (st : State)
    (last : AnyMessage) (h : st.messages.getLast? = some last) :
    ∃ res, create_entry_node name nds st = .ok res ∧
      res.dialog_state = nds ∧ res.messages.length = 1 ∧
      (∀ c tc rest i, last = .ai c (tc :: rest) → tc.id = some i → i ≠ "" →
        res.messages = [.tool (entryFullContent name) none i]) ∧
      (messageToolCalls last = [] →
        res.messages = [.tool (entryFallbackContent name) (some name)
          "unknown_tool_call_id"]) ∧
      (∀ c tc rest, last = .ai c (tc :: rest) → optStrTruthy tc.id = false →
        res.messages = [.tool (entryFallbackContent name) (some name)
          "unknown_tool_call_id"]) := by
  cases he : entryToolCallId last with
  | none =>
    refine ⟨⟨nds, [.tool (entryFallbackContent name) (some name)
      "unknown_tool_call_id"]⟩, ?_, rfl, rfl, ?_, ?_, ?_⟩
    · rw [create_entry_node_eq name nds st last h, he]
    · intro c tc rest i heq hid hne
      subst heq
      simp [entryToolCallId, hid, optStrTruthy, hne] at he
    · intro _
      rfl
    · intro c tc rest heq hfalsy
      rfl
  | some i =>
    refine ⟨⟨nds, [.tool (entryFullContent name) none i]⟩, ?_, rfl, rfl,
      ?_, ?_, ?_⟩
    · rw [create_entry_node_eq name nds st last h, he]
    · intro c tc rest i2 heq hid hne
      subst heq
      simp [entryToolCallId, hid, optStrTruthy, hne] at he
      simp [he]
    · intro hmt
      exfalso
      cases last with
      | ai c tcs =>
        simp only [messageToolCalls] at hmt
        subst hmt
        simp [entryToolCallId] at he
      | human c => simp [entryToolCallId] at he
      | tool c n i2 => simp [entryToolCallId] at he
    · intro c tc rest heq hfalsy
      subst heq
      simp [entryToolCallId, hfalsy] at he

/-- Witness for the amended C7: a concrete delegation state whose first
ToolCall has the truthy id `"call_7"`. -/
theorem c7_entry_node_succeeds_witness :
    ∃ res,
      create_entry_node "PC Build Assistant" "build_pc"
        ⟨[.ai (.str "x") [⟨"ToPCBuildAssistant", some "call_7"⟩]], none, []⟩ =
        .ok res ∧
      res.dialog_state = "build_pc" ∧ res.messages.length = 1 ∧
      (∀ c tc rest i,
        (AnyMessage.ai (.str "x") [⟨"ToPCBuildAssistant", some "call_7"⟩]) =
          .ai c (tc :: rest) → tc.id = some i → i ≠ "" →
        res.messages = [.tool (entryFullContent "PC Build Assistant") none i]) ∧
      (messageToolCalls
          (.ai (.str "x") [⟨"ToPCBuildAssistant", some "call_7"⟩]) = [] →
        res.messages = [.tool (entryFallbackContent "PC Build Assistant")
          (some "PC Build Assistant") "unknown_tool_call_id"]) ∧
      (∀ c tc rest,
        (AnyMessage.ai (.str "x") [⟨"ToPCBuildAssistant", some "call_7"⟩]) =
          .ai c (tc :: rest) → optStrTruthy tc.id = false →
        res.messages = [.tool (entryFallbackContent "PC Build Assistant")
          (some "PC Build Assistant") "unknown_tool_call_id"]) :=
  c7_entry_node_succeeds "PC Build Assistant" "build_pc"
    ⟨[.ai (.str "x") [⟨"ToPCBuildAssistant", some "call_7"⟩]], none, []⟩
    (.ai (.str "x") [⟨"ToPCBuildAssistant", some "call_7"⟩]) rfl

/-- The list comprehension of `handle_tool_error` builds exactly one
`ToolMessage` per ToolCall, pointwise addressed to that call's id, whenever
every call in the batch carries an id. -/
theorem buildErrorMessages_spec (e : String) (tcs : List ToolCall)
    (hids : ∀ tc ∈ tcs, tc.id ≠ none) :
    ∃ msgs, buildErrorMessages e tcs = some msgs ∧
      msgs.length = tcs.length ∧
      ∀ i (hi : i < tcs.length) (hm : i < msgs.length),
        msgs.get ⟨i, hm⟩ =
          .tool (toolErrorContent e) none ((tcs.get ⟨i, hi⟩).id.getD "") := by
  induction tcs with
  | nil =>
    exact ⟨[], rfl, rfl, fun i hi _ => absurd hi (by simp)⟩
  | cons tc rest ih =>
    have htc : tc.id ≠ none := hids tc (by simp)
    obtain ⟨iid, hiid⟩ := Option.ne_none_iff_exists'.mp htc
    obtain ⟨ms, hms, hlen, hidx⟩ := ih (fun x hx => hids x (by simp [hx]))
    refine ⟨.tool (toolErrorContent e) none iid :: ms, ?_, ?_, ?_⟩
    · simp [buildErrorMessages, hiid, hms]
    · simp [hlen]
    · intro i hi hm
      cases i with
      | zero => simp [hiid]
      | succ n =>
        simp only [List.get_cons_succ]
        exact hidx n (by simpa using hi) (by simpa using hm)

/-- Claim C5 counterexample: an error state whose last assistant message
carries one ToolCall whose `"id"` is `None`.  The handler builds
`ToolMessage(tool_call_id=tc["id"])`; `tool_call_id` is typed `str`, so
pydantic validation raises — contradicting the claim that the handler never
raises and returns one addressed ToolResult per ToolCall. -/
theorem c5_handle_tool_error_counterexample :
    handle_tool_error ⟨"ValueError", [.ai (.str "x") [⟨"t1", none⟩]]⟩ =
      none := rfl

/-- Claim C5 as amended: for every error state with a message history, when
the last message is an assistant message with a non-empty ToolCall batch each
of whose calls carries an id, the fallback handler returns exactly one
ToolResult per ToolCall, the `i`-th addressed to the `i`-th call's id and
embedding the rendered exception — and it does not raise; when the last
message has no ToolCalls it returns a single ToolResult named
`error_handler` with the synthetic empty call-id and explanatory error
content. -/
theorem c5_handle_tool_error (st : ErrorState) (last : AnyMessage)
    (h : st.messages.getLast? = some last) :
    (∀ c tcs, last = .ai c tcs → tcs ≠ [] → (∀ tc ∈ tcs, tc.id ≠ none) →
      ∃ msgs, handle_tool_error st = some msgs ∧
        msgs.length = tcs.length ∧
        ∀ i (hi : i < tcs.length) (hm : i < msgs.length),
          msgs.get ⟨i, hm⟩ =
            .tool (toolErrorContent st.error) none
              ((tcs.get ⟨i, hi⟩).id.getD "")) ∧
    (messageToolCalls last = [] →
      handle_tool_error st =
        some [.tool (toolErrorFallbackContent st.error)
          (some "error_handler") ""]) := by
  constructor
  · intro c tcs heq hne hids
    subst heq
    obtain ⟨msgs, hb, hlen, hidx⟩ := buildErrorMessages_spec st.error tcs hids
    refine ⟨msgs, ?_, hlen, hidx⟩
    unfold handle_tool_error
    cases hm : st.messages.getLast? with
    | none => rw [hm] at h; cases h
    | some m =>
      rw [hm] at h
      injection h with h2
      subst h2
      cases tcs with
      | nil => exact absurd rfl hne
      | cons tc rest =>
        dsimp only [messageToolCalls]
        exact hb
  · intro hmt
    unfold handle_tool_error
    cases hm : st.messages.getLast? with
    | none => rw [hm] at h; cases h
    | some m =>
      rw [hm] at h
      injection h with h2
      subst h2
      dsimp only
      rw [hmt]

/-- Witness for C5: a concrete error state with two ToolCalls yields exactly
two addressed ToolResults. -/
theorem c5_handle_tool_error_witness :
    ∃ msgs,
      handle_tool_error
        ⟨"ValueError", [.ai (.str "x") [⟨"t1", some "a"⟩, ⟨"t2", some "b"⟩]]⟩ =
        some msgs ∧
      msgs.length =
        ([⟨"t1", some "a"⟩, ⟨"t2", some "b"⟩] : List ToolCall).length ∧
      ∀ i (hi : i < ([⟨"t1", some "a"⟩, ⟨"t2", some "b"⟩] : List ToolCall).length)
        (hm : i < msgs.length),
        msgs.get ⟨i, hm⟩ =
          .tool (toolErrorContent "ValueError") none
            ((([⟨"t1", some "a"⟩, ⟨"t2", some "b"⟩] : List ToolCall).get
              ⟨i, hi⟩).id.getD "") :=
  (c5_handle_tool_error
      ⟨"ValueError", [.ai (.str "x") [⟨"t1", some "a"⟩, ⟨"t2", some "b"⟩]]⟩
      (.ai (.str "x") [⟨"t1", some "a"⟩, ⟨"t2", some "b"⟩]) rfl).1
    (.str "x") [⟨"t1", some "a"⟩, ⟨"t2", some "b"⟩] rfl (by decide) (by decide)

/-- Claim C6: given a bound runnable whose first two responses are invalid
(no ToolCalls, empty or blank-first-block content) and whose third response is
actionable, the Assistant node performs exactly 3 invocations, returns the
third response, and before each re-invocation has extended the message
history with one synthetic user-style re-prompt. -/
theorem c6_assistant_retry (st : State) (r1 r2 r3 : AIResponse)
    (rest : List AIResponse)
    (h1 : responseInvalid r1 = true) (h2 : responseInvalid r2 = true)
    (h3 : responseInvalid r3 = false) :
    assistantCall (r1 :: r2 :: r3 :: rest) st =
      some (r3,
        { st with messages :=
            st.messages ++ [syntheticRequest, syntheticRequest] },
        3) := by
  simp only [assistantCall, h1, h2, h3, if_true, Bool.false_eq_true, if_false]
  simp [List.append_assoc]

/-- Witness for C6: two blank responses then `"Готово"`; the runnable is
invoked 3 times and the history gains two synthetic re-prompts. -/
theorem c6_assistant_retry_witness :
    assistantCall
      [⟨.str "", []⟩, ⟨.str "", []⟩, ⟨.str "Готово", []⟩]
      ⟨[.human (.str "Собери ПК")], none, []⟩ =
      some (⟨.str "Готово", []⟩,
        { (⟨[.human (.str "Собери ПК")], none, []⟩ : State) with messages :=
            [.human (.str "Собери ПК")] ++ [syntheticRequest, syntheticRequest] },
        3) :=
  c6_assistant_retry ⟨[.human (.str "Собери ПК")], none, []⟩
    ⟨.str "", []⟩ ⟨.str "", []⟩ ⟨.str "Готово", []⟩ [] rfl rfl rfl
